import Mathlib

/-!
Verification of the `edcert-letter` crate (`src/letter.rs`): the signed
envelope type `Letter<T>` and its trust-chain validation algorithm.

Byte sequences (`&[u8]`, `Vec<u8>`) are embedded as `List Nat`.  The external
`edcert` collaborators (Certificate, Validator, Revoker, the ed25519 signing
primitive) are capabilities the crate consumes through narrow interfaces; they
are embedded as records of the operations the crate actually calls.  Fallible
Rust `Result` values become `Except`; the potentially panicking
`sig.parent().unwrap()` inside `self_validate` is made explicit by letting
`self_validate` return `Option (Except ...)`, where `none` marks the panic.
-/

/-- The `Fingerprint` capability: a content value reduces to a canonical byte
sequence, the material that gets signed and verified. -/
class Fingerprint (T : Type) where
  fingerprint : T → List Nat

export Fingerprint (fingerprint)

/-- External `edcert` certificate capability, as consumed by `letter.rs`:
it can sign bytes (producing `some hash`, or `none` when it has no private
key) and verify a (bytes, hash) pair against itself. -/
structure Certificate where
  sign : List Nat → Option (List Nat)
  verify : List Nat → List Nat → Bool

/-- The validation error values returned by `self_validate`. -/
inductive ValidationError
  | SignatureInvalid
  | ParentInvalid
deriving DecidableEq, Repr

/-- External `edcert` signature record: the signature hash bytes plus an
optional owned parent certificate. -/
structure Signature where
  hash : List Nat
  parent : Option Certificate

/-- `Signature::new(hash)`: a signature produced directly by the master key,
with no parent. -/
def Signature.new (hash : List Nat) : Signature :=
  { hash := hash, parent := none }

/-- `Signature::with_parent(parent, hash)`: a signature produced by a parent
certificate. -/
def Signature.with_parent (parent : Certificate) (hash : List Nat) : Signature :=
  { hash := hash, parent := some parent }

/-- `Signature::is_signed_by_master()`: true iff the parent is absent. -/
def Signature.is_signed_by_master (s : Signature) : Bool :=
  s.parent.isNone

/-- External `edcert` validator capability, as consumed by `letter.rs`:
the root-key signature check, and the general recursive trust check on a
certificate (whose `Result` the crate only inspects through `is_ok()`). -/
structure Validator where
  is_signature_valid : List Nat → List Nat → Bool
  is_valid : Certificate → Except ValidationError Unit

/-- `Result::is_ok()` on the validator's recursive check. -/
def resultIsOk (r : Except ValidationError Unit) : Bool :=
  match r with
  | Except.ok _ => true
  | Except.error _ => false

/-- External revocation error values (the crate never produces one). -/
inductive RevokeError
  | Revoked
deriving DecidableEq, Repr

/-- External `Revoker` capability; `letter.rs` accepts one but never
consults it. -/
structure Revoker where
  revoked : List Nat → Bool

/-- The `Letter<T>` envelope: content together with a signature. -/
structure Letter (T : Type) [Fingerprint T] where
  content : T
  signature : Signature

variable {T : Type} [Fingerprint T]

/-- `Letter::new(content, signature)`: direct assembly from parts, no
validation performed. -/
def Letter.new (content : T) (signature : Signature) : Letter T :=
  { content := content, signature := signature }

/-- `Letter::with_private_key(content, private_key)`: sign the content's
fingerprint directly with the master private key.  The external
`ed25519::sign` primitive is passed in as `ed_sign` (message, then key). -/
def Letter.with_private_key (ed_sign : List Nat → List Nat → List Nat)
    (content : T) (private_key : List Nat) : Letter T :=
  let signature := Signature.new (ed_sign (Fingerprint.fingerprint content) private_key)
  Letter.new content signature

/-- `Letter::with_certificate(content, cert)`: ask the certificate to sign the
content's fingerprint; `Err(())` when the certificate has no private key
(the spec's `SigningFailed` condition), otherwise a letter whose signature
carries a clone of the certificate as parent. -/
def Letter.with_certificate (content : T) (cert : Certificate) :
    Except Unit (Letter T) :=
  match cert.sign (Fingerprint.fingerprint content) with
  | some hash => Except.ok (Letter.new content (Signature.with_parent cert hash))
  | none => Except.error ()

/-- `Letter::get()`: a reference to the contained content. -/
def Letter.get (l : Letter T) : T :=
  l.content

/-- The `Deref` impl: dereferencing a letter yields `get()`. -/
def Letter.deref (l : Letter T) : T :=
  l.get

/-- `Letter::fingerprint()`: the fingerprint of the contained content. -/
def Letter.fingerprint (l : Letter T) : List Nat :=
  Fingerprint.fingerprint l.content

/-- `self_validate` from the `Validatable` impl.  `none` models the panic of
`sig.parent().unwrap()` on a signature that is not master-signed yet has no
parent; every other outcome is `some` of the Rust result. -/
def Letter.self_validate (l : Letter T) (cv : Validator) :
    Option (Except ValidationError Unit) :=
  let sig := l.signature
  let bytes := Fingerprint.fingerprint l.content
  if sig.is_signed_by_master then
    if cv.is_signature_valid bytes sig.hash then
      some (Except.ok ())
    else
      some (Except.error ValidationError.SignatureInvalid)
  else
    match sig.parent with
    | none => none
    | some parent =>
      if resultIsOk (cv.is_valid parent) then
        if parent.verify bytes sig.hash then
          some (Except.ok ())
        else
          some (Except.error ValidationError.SignatureInvalid)
      else
        some (Except.error ValidationError.ParentInvalid)

/-- `self_check_revoked` from the `Revokable` impl: always `Ok(())`. -/
def Letter.self_check_revoked (_l : Letter T) (_r : Revoker) :
    Except RevokeError Unit :=
  Except.ok ()

/-- Concrete content type for witnesses: raw bytes fingerprint to
themselves. -/
instance : Fingerprint (List Nat) :=
  ⟨fun bytes => bytes⟩

/-- Witness certificate whose signing operation echoes the message and whose
verification checks equality with the stored hash. -/
def wCert : Certificate :=
  { sign := fun bytes => some bytes, verify := fun bytes h => decide (bytes = h) }

/-- Witness certificate holding no private key: signing always fails. -/
def wCertNoKey : Certificate :=
  { sign := fun _ => none, verify := fun _ _ => false }

/-- Witness validator: the root-key check compares bytes with the hash, and
every certificate is trusted. -/
def wValidatorEq : Validator :=
  { is_signature_valid := fun bytes h => decide (bytes = h),
    is_valid := fun _ => Except.ok () }

/-- Witness validator that trusts no certificate. -/
def wValidatorNoCert : Validator :=
  { is_signature_valid := fun bytes h => decide (bytes = h),
    is_valid := fun _ => Except.error ValidationError.ParentInvalid }

/-- Witness letter signed directly by the master. -/
def wLetterM : Letter (List Nat) :=
  Letter.new [1] (Signature.new [1])

/-- Witness letter signed by the witness certificate. -/
def wLetterP : Letter (List Nat) :=
  Letter.new [1] (Signature.with_parent wCert [1])

/-- C1: for a letter whose signature has a parent certificate P,
`self_validate` returns `ParentInvalid` whenever the validator's `is_valid(P)`
check fails — a result that does not depend on `P.verify` — and otherwise it
succeeds exactly when `P.verify(fingerprint(content), signature.hash)` is
true, failing with `SignatureInvalid` when that is false. -/
theorem self_validate_parent_case {T : Type} [Fingerprint T]
    (l : Letter T) (cv : Validator) (P : Certificate)
    (hp : l.signature.parent = some P) :
    (resultIsOk (cv.is_valid P) = false →
      l.self_validate cv = some (Except.error ValidationError.ParentInvalid)) ∧
    (resultIsOk (cv.is_valid P) = true →
      (l.self_validate cv = some (Except.ok ()) ↔
        P.verify (Fingerprint.fingerprint l.content) l.signature.hash = true) ∧
      (P.verify (Fingerprint.fingerprint l.content) l.signature.hash = false →
        l.self_validate cv = some (Except.error ValidationError.SignatureInvalid))) := by
  cases hv : resultIsOk (cv.is_valid P) <;>
    cases hverify : P.verify (Fingerprint.fingerprint l.content) l.signature.hash <;>
      simp [Letter.self_validate, Signature.is_signed_by_master, hp, hv, hverify]

/-- Witness for C1 at a concrete certificate-signed letter and validator. -/
theorem self_validate_parent_case_witness :
    wLetterP.signature.parent = some wCert ∧
    ((resultIsOk (wValidatorEq.is_valid wCert) = false →
      wLetterP.self_validate wValidatorEq =
        some (Except.error ValidationError.ParentInvalid)) ∧
    (resultIsOk (wValidatorEq.is_valid wCert) = true →
      (wLetterP.self_validate wValidatorEq = some (Except.ok ()) ↔
        wCert.verify (Fingerprint.fingerprint wLetterP.content)
          wLetterP.signature.hash = true) ∧
      (wCert.verify (Fingerprint.fingerprint wLetterP.content)
          wLetterP.signature.hash = false →
        wLetterP.self_validate wValidatorEq =
          some (Except.error ValidationError.SignatureInvalid)))) :=
  ⟨rfl, self_validate_parent_case wLetterP wValidatorEq wCert rfl⟩

/-- C2: for a letter whose signature is signed by the master (no parent),
`self_validate` succeeds exactly when the validator accepts
`(fingerprint(content), signature.hash)`, and fails with `SignatureInvalid`
otherwise. -/
theorem self_validate_master_case {T : Type} [Fingerprint T]
    (l : Letter T) (cv : Validator)
    (hm : l.signature.is_signed_by_master = true) :
    (l.self_validate cv = some (Except.ok ()) ↔
      cv.is_signature_valid (Fingerprint.fingerprint l.content)
        l.signature.hash = true) ∧
    (cv.is_signature_valid (Fingerprint.fingerprint l.content)
        l.signature.hash = false →
      l.self_validate cv = some (Except.error ValidationError.SignatureInvalid)) := by
  cases hs : cv.is_signature_valid (Fingerprint.fingerprint l.content) l.signature.hash <;>
    simp [Letter.self_validate, hm, hs]

/-- Witness for C2 at a concrete master-signed letter and validator. -/
theorem self_validate_master_case_witness :
    wLetterM.signature.is_signed_by_master = true ∧
    ((wLetterM.self_validate wValidatorEq = some (Except.ok ()) ↔
      wValidatorEq.is_signature_valid (Fingerprint.fingerprint wLetterM.content)
        wLetterM.signature.hash = true) ∧
    (wValidatorEq.is_signature_valid (Fingerprint.fingerprint wLetterM.content)
        wLetterM.signature.hash = false →
      wLetterM.self_validate wValidatorEq =
        some (Except.error ValidationError.SignatureInvalid))) :=
  ⟨rfl, self_validate_master_case wLetterM wValidatorEq rfl⟩

/-- C9: `self_check_revoked` always reports "not revoked", for every letter
and every revoker. -/
theorem self_check_revoked_always_ok {T : Type} [Fingerprint T]
    (l : Letter T) (r : Revoker) :
    l.self_check_revoked r = Except.ok () :=
  rfl

/-- C10: whenever the signature satisfies the invariant that
`is_signed_by_master` holds exactly when the parent is absent, `self_validate`
never reaches the panic of `sig.parent().unwrap()` (its result is never
`none`). -/
theorem self_validate_never_panics {T : Type} [Fingerprint T]
    (l : Letter T) (cv : Validator)
    (_hinv : l.signature.is_signed_by_master = l.signature.parent.isNone) :
    (l.self_validate cv).isSome = true := by
  unfold Letter.self_validate
  cases hp : l.signature.parent with
  | none =>
    simp [Signature.is_signed_by_master, hp]
    split <;> rfl
  | some P =>
    simp [Signature.is_signed_by_master, hp]
    split
    · split <;> rfl
    · rfl

/-- Witness for C10 at a concrete certificate-signed letter. -/
theorem self_validate_never_panics_witness :
    wLetterP.signature.is_signed_by_master = wLetterP.signature.parent.isNone ∧
    (wLetterP.self_validate wValidatorNoCert).isSome = true :=
  ⟨rfl, self_validate_never_panics wLetterP wValidatorNoCert rfl⟩

/-- C3: a letter built by `with_certificate(C, cert)` validates successfully
under a validator iff the validator's `is_valid(cert)` check succeeds and
`cert.verify(fingerprint(C), hash)` is true, where `hash` is the signature the
certificate produced over `fingerprint(C)` at construction time. -/
theorem with_certificate_validates_iff {T : Type} [Fingerprint T]
    (C : T) (cert : Certificate) (hash : List Nat) (cv : Validator)
    (l : Letter T)
    (hsign : cert.sign (Fingerprint.fingerprint C) = some hash)
    (hl : Letter.with_certificate C cert = Except.ok l) :
    l.self_validate cv = some (Except.ok ()) ↔
      (resultIsOk (cv.is_valid cert) = true ∧
       cert.verify (Fingerprint.fingerprint C) hash = true) := by
  unfold Letter.with_certificate at hl
  rw [hsign] at hl
  simp only [Except.ok.injEq] at hl
  subst hl
  cases hv : resultIsOk (cv.is_valid cert) <;>
    cases hverify : cert.verify (Fingerprint.fingerprint C) hash <;>
      simp [Letter.self_validate, Letter.new, Signature.is_signed_by_master,
        Signature.with_parent, hv, hverify]

/-- Witness for C3 at concrete content, certificate and validator. -/
theorem with_certificate_validates_iff_witness :
    wCert.sign (Fingerprint.fingerprint ([1] : List Nat)) = some [1] ∧
    Letter.with_certificate ([1] : List Nat) wCert = Except.ok wLetterP ∧
    (wLetterP.self_validate wValidatorEq = some (Except.ok ()) ↔
      (resultIsOk (wValidatorEq.is_valid wCert) = true ∧
       wCert.verify (Fingerprint.fingerprint ([1] : List Nat)) [1] = true)) :=
  ⟨rfl, rfl, with_certificate_validates_iff [1] wCert [1] wValidatorEq wLetterP rfl rfl⟩

/-- C4: when the certificate has no private key (its signing operation
returns `none`), `with_certificate` fails with the error value `Err(())` —
the spec's `SigningFailed` condition — and no letter is constructed. -/
theorem with_certificate_signing_failed {T : Type} [Fingerprint T]
    (content : T) (cert : Certificate)
    (hnone : cert.sign (Fingerprint.fingerprint content) = none) :
    Letter.with_certificate content cert = Except.error () := by
  unfold Letter.with_certificate
  rw [hnone]

/-- Witness for C4 at a concrete certificate without a private key. -/
theorem with_certificate_signing_failed_witness :
    wCertNoKey.sign (Fingerprint.fingerprint ([1] : List Nat)) = none ∧
    Letter.with_certificate ([1] : List Nat) wCertNoKey = Except.error () :=
  ⟨rfl, with_certificate_signing_failed [1] wCertNoKey rfl⟩

/-- C5: when the certificate's signing operation succeeds on the content's
fingerprint, `with_certificate` returns a letter whose signature's parent is
a copy of the certificate, whose signature hash is exactly the produced
value, and whose content is the given content. -/
theorem with_certificate_success_shape {T : Type} [Fingerprint T]
    (content : T) (cert : Certificate) (hash : List Nat)
    (hsign : cert.sign (Fingerprint.fingerprint content) = some hash) :
    ∃ l : Letter T, Letter.with_certificate content cert = Except.ok l ∧
      l.signature.parent = some cert ∧
      l.signature.hash = hash ∧
      l.content = content := by
  refine ⟨Letter.new content (Signature.with_parent cert hash), ?_, rfl, rfl, rfl⟩
  unfold Letter.with_certificate
  rw [hsign]

/-- Witness for C5 at concrete content and certificate. -/
theorem with_certificate_success_shape_witness :
    wCert.sign (Fingerprint.fingerprint ([1] : List Nat)) = some [1] ∧
    (∃ l : Letter (List Nat),
      Letter.with_certificate ([1] : List Nat) wCert = Except.ok l ∧
      l.signature.parent = some wCert ∧
      l.signature.hash = [1] ∧
      l.content = [1]) :=
  ⟨rfl, with_certificate_success_shape [1] wCert [1] rfl⟩

/-- C6: `with_private_key` is total (a plain function with no error case) and
produces a letter whose signature has no parent — so `is_signed_by_master`
is true — whose hash is the direct signature of the content's fingerprint
under the given private key, and whose content is the given content. -/
theorem with_private_key_master_signed {T : Type} [Fingerprint T]
    (ed_sign : List Nat → List Nat → List Nat)
    (content : T) (private_key : List Nat) :
    (Letter.with_private_key ed_sign content private_key).signature.parent = none ∧
    (Letter.with_private_key ed_sign content private_key).signature.is_signed_by_master
      = true ∧
    (Letter.with_private_key ed_sign content private_key).signature.hash =
      ed_sign (Fingerprint.fingerprint content) private_key ∧
    (Letter.with_private_key ed_sign content private_key).content = content :=
  ⟨rfl, rfl, rfl, rfl⟩

/-- C7: if a letter validates successfully and its content field is replaced
by content with a different fingerprint, subsequent validation fails with
`SignatureInvalid`, through the generic fingerprint comparison of the
validation path (the hypotheses say only that neither the root check nor the
parent's `verify` accepts one hash for two distinct fingerprints). -/
theorem tampering_invalidates {T : Type} [Fingerprint T]
    (l : Letter T) (cv : Validator) (c2 : T)
    (hok : l.self_validate cv = some (Except.ok ()))
    (hfp : Fingerprint.fingerprint c2 ≠ Fingerprint.fingerprint l.content)
    (hroot : ∀ b b2 : List Nat,
      cv.is_signature_valid b l.signature.hash = true →
      cv.is_signature_valid b2 l.signature.hash = true → b = b2)
    (hcert : ∀ P : Certificate, l.signature.parent = some P →
      ∀ b b2 : List Nat,
        P.verify b l.signature.hash = true →
        P.verify b2 l.signature.hash = true → b = b2) :
    (Letter.new c2 l.signature).self_validate cv =
      some (Except.error ValidationError.SignatureInvalid) := by
  cases hp : l.signature.parent with
  | none =>
    have hm : l.signature.is_signed_by_master = true := by
      simp [Signature.is_signed_by_master, hp]
    have h1 : cv.is_signature_valid (Fingerprint.fingerprint l.content)
        l.signature.hash = true := by
      by_contra hc
      simp [Letter.self_validate, hm, hc] at hok
    have h2 : cv.is_signature_valid (Fingerprint.fingerprint c2)
        l.signature.hash = false := by
      by_contra hc
      simp only [Bool.not_eq_false] at hc
      exact hfp (hroot _ _ hc h1)
    simp [Letter.self_validate, Letter.new, hm, h2]
  | some P =>
    have hm : l.signature.is_signed_by_master = false := by
      simp [Signature.is_signed_by_master, hp]
    have hv : resultIsOk (cv.is_valid P) = true := by
      by_contra hc
      simp only [Bool.not_eq_true] at hc
      simp [Letter.self_validate, hm, hp, hc] at hok
    have h1 : P.verify (Fingerprint.fingerprint l.content)
        l.signature.hash = true := by
      by_contra hc
      simp only [Bool.not_eq_true] at hc
      simp [Letter.self_validate, hm, hp, hv, hc] at hok
    have h2 : P.verify (Fingerprint.fingerprint c2)
        l.signature.hash = false := by
      by_contra hc
      simp only [Bool.not_eq_false] at hc
      exact hfp (hcert P hp _ _ hc h1)
    simp [Letter.self_validate, Letter.new, hm, hp, hv, h2]

/-- Witness for C7: a concrete master-signed letter that validates, whose
content replaced by different bytes makes validation fail. -/
theorem tampering_invalidates_witness :
    wLetterM.self_validate wValidatorEq = some (Except.ok ()) ∧
    Fingerprint.fingerprint ([2] : List Nat) ≠
      Fingerprint.fingerprint wLetterM.content ∧
    (Letter.new ([2] : List Nat) wLetterM.signature).self_validate wValidatorEq =
      some (Except.error ValidationError.SignatureInvalid) :=
  ⟨rfl, by decide,
    tampering_invalidates wLetterM wValidatorEq [2] rfl (by decide)
      (fun b b2 h1 h2 => (of_decide_eq_true h1).trans (of_decide_eq_true h2).symm)
      (fun P hP => by simp [wLetterM, Letter.new, Signature.new] at hP)⟩

/-- C8: reading the content back through `get()` or through dereference
returns the original input, for a letter built by `new`, `with_private_key`,
or a successful `with_certificate`; signing leaves the content unchanged. -/
theorem content_access_returns_original {T : Type} [Fingerprint T]
    (c : T) (s : Signature) (ed_sign : List Nat → List Nat → List Nat)
    (key : List Nat) (cert : Certificate) :
    ((Letter.new c s).get = c ∧ (Letter.new c s).deref = c) ∧
    ((Letter.with_private_key ed_sign c key).get = c ∧
     (Letter.with_private_key ed_sign c key).deref = c) ∧
    (∀ l : Letter T, Letter.with_certificate c cert = Except.ok l →
      l.get = c ∧ l.deref = c) := by
  refine ⟨⟨rfl, rfl⟩, ⟨rfl, rfl⟩, ?_⟩
  intro l hl
  unfold Letter.with_certificate at hl
  cases hs : cert.sign (Fingerprint.fingerprint c) <;> rw [hs] at hl
  · exact absurd hl (by simp)
  · simp only [Except.ok.injEq] at hl
    subst hl
    exact ⟨rfl, rfl⟩

/-- Witness for C8 at concrete content, signature and certificate. -/
theorem content_access_returns_original_witness :
    (((Letter.new ([1] : List Nat) (Signature.new [1])).get = [1]) ∧
      ((Letter.new ([1] : List Nat) (Signature.new [1])).deref = [1])) ∧
    (((Letter.with_private_key (fun m _ => m) ([1] : List Nat) [9]).get = [1]) ∧
      ((Letter.with_private_key (fun m _ => m) ([1] : List Nat) [9]).deref = [1])) ∧
    (∀ l : Letter (List Nat),
      Letter.with_certificate ([1] : List Nat) wCert = Except.ok l →
      l.get = [1] ∧ l.deref = [1]) :=
  content_access_returns_original [1] (Signature.new [1]) (fun m _ => m) [9] wCert
